import Mathlib

/-!
Verification of the investment-platform frontend service layer.

The TypeScript service modules are shallowly embedded as executable Lean
definitions.  JavaScript runtime values are modelled as follows:

* `number` is modelled by `ℚ`; the special value `NaN` is modelled by the
  `none` case of `JsNum := Option ℚ` (the code only produces `NaN` through
  failed `parseFloat`/`parseInt` calls, never through arithmetic on already
  valid numbers).
* a possibly-`undefined` value of type `T` is modelled by `Option T`
  (`none` = the field is absent / `undefined`).
* `Date` objects are modelled by `JsDate`: `ofString s` is `new Date(s)` for
  a present string `s`, `nowDate` is `new Date()` (the fabricated "current
  time" value), and `invalidDate` is `new Date(undefined)` (an Invalid Date).
* a promise that either resolves with `v` or rejects with message `e` is
  modelled by `Except String` (`.ok v` / `.error e`).
-/

namespace InvPlat

/-- `new Date(x)` where `x` is a possibly-absent string field of an
`any`-typed backend record: an absent argument yields an Invalid Date. -/
inductive JsDate where
  | ofString (s : String)
  | nowDate
  | invalidDate
deriving DecidableEq, Repr

/-- JS numbers including `NaN`: `none` models `NaN`. -/
abbrev JsNum := Option ℚ

/-- `new Date(x)` on a possibly-absent string. -/
def jsNewDate (o : Option String) : JsDate :=
  match o with
  | some s => JsDate.ofString s
  | none => JsDate.invalidDate

/-- JS truthiness of a possibly-absent string (used by `x ? a : b`
conditionals): `undefined` and the empty string are falsy. -/
def strTruthy (o : Option String) : Bool :=
  match o with
  | some s => s ≠ ""
  | none => false

/-- `x || d` for a possibly-absent string `x` (the `||` default pattern of
the adapters): falsy values (`undefined`, `""`) are replaced by `d`. -/
def strOrDefault (o : Option String) (d : String) : String :=
  match o with
  | some s => if s = "" then d else s
  | none => d

/-- `x ?? d` (nullish coalescing) on a possibly-absent value. -/
def nullishOr (o : Option α) (d : α) : α := o.getD d

/-- Value of a digit list read in base 10. -/
def digitsToNat (ds : List Char) : Nat :=
  ds.foldl (fun n c => 10 * n + (c.toNat - 48)) 0

/-- JS whitespace skipped by `parseFloat`/`parseInt`. -/
def isJsSpace (c : Char) : Bool :=
  c == ' ' || c == '\t' || c == '\n' || c == '\r'

/-- JavaScript `parseFloat` on a string: skips leading whitespace, reads an
optional sign, an integer part, an optional fractional part and an optional
exponent, and returns `NaN` (`none`) when no digits at all can be read. -/
def jsParseFloat (s : String) : JsNum :=
  let cs := s.toList.dropWhile isJsSpace
  let signAndRest : ℚ × List Char :=
    match cs with
    | '-' :: rest => (-1, rest)
    | '+' :: rest => (1, rest)
    | _ => (1, cs)
  let sgn := signAndRest.1
  let cs0 := signAndRest.2
  let intDs := cs0.takeWhile Char.isDigit
  let cs1 := cs0.dropWhile Char.isDigit
  let fracAndRest : List Char × List Char :=
    match cs1 with
    | '.' :: rest => (rest.takeWhile Char.isDigit, rest.dropWhile Char.isDigit)
    | _ => ([], cs1)
  let fracDs := fracAndRest.1
  let cs2 := fracAndRest.2
  if intDs.isEmpty && fracDs.isEmpty then none
  else
    let mantissa : ℚ :=
      (digitsToNat intDs : ℚ) + (digitsToNat fracDs : ℚ) / ((10 : ℚ) ^ fracDs.length)
    let expVal : Int :=
      match cs2 with
      | 'e' :: rest =>
          let esignAndRest : Int × List Char :=
            match rest with
            | '-' :: r => (-1, r)
            | '+' :: r => (1, r)
            | _ => (1, rest)
          let eDs := esignAndRest.2.takeWhile Char.isDigit
          if eDs.isEmpty then 0 else esignAndRest.1 * (digitsToNat eDs : Int)
      | 'E' :: rest =>
          let esignAndRest : Int × List Char :=
            match rest with
            | '-' :: r => (-1, r)
            | '+' :: r => (1, r)
            | _ => (1, rest)
          let eDs := esignAndRest.2.takeWhile Char.isDigit
          if eDs.isEmpty then 0 else esignAndRest.1 * (digitsToNat eDs : Int)
      | _ => 0
    some (sgn * mantissa * (10 : ℚ) ^ expVal)

/-- `parseFloat(x)` on a possibly-absent backend field: `parseFloat` of
`undefined` coerces the argument to the string "undefined" and yields
`NaN`. -/
def jsParseFloatField (o : Option String) : JsNum :=
  match o with
  | some s => jsParseFloat s
  | none => none

/-- JavaScript `parseInt(x)` (radix 10): leading whitespace, optional sign,
then a digit prefix; no digits means `NaN` (`none`). -/
def jsParseInt (s : String) : Option Int :=
  let cs := s.toList.dropWhile isJsSpace
  let signAndRest : Int × List Char :=
    match cs with
    | '-' :: rest => (-1, rest)
    | '+' :: rest => (1, rest)
    | _ => (1, cs)
  let ds := signAndRest.2.takeWhile Char.isDigit
  if ds.isEmpty then none else some (signAndRest.1 * (digitsToNat ds : Int))

/-- `Math.ceil(a / b)` for natural `a`, `b`, as used for `totalPages`
computations.  Faithful for `b > 0` — `mathCeilDivNat_eq_ceil` below proves
it agrees with the mathematical ceiling of `a / b`; the services always
call it with a positive `limit` (JS would give `Infinity`/`NaN` for
`b = 0`). -/
def mathCeilDivNat (a b : Nat) : Nat :=
  (a + b - 1) / b

/-! ## HTTP client wrapper (`src/lib/api.ts`, `ApiClient.request`) -/

/-- Parsed JSON error body of a non-2xx response (`errorData`).  The code
reads `errorData.detail`; a `message` key may also be present but is never
consulted. -/
structure ErrorBody where
  detail : Option String := none
  message : Option String := none
deriving DecidableEq, Repr

/-- The part of a `fetch` response observed by `ApiClient.request`:
`ok`/`status`/`statusText` plus the result of `response.json()` on the
error path (`none` models a JSON body that fails to parse, which
`.catch(() => ({}))` turns into the empty object). -/
structure HttpResponse where
  ok : Bool
  status : Nat
  statusText : String
  errorBody : Option ErrorBody := none
deriving DecidableEq, Repr

/-- The generic fallback message `` `HTTP ${response.status}: ${response.statusText}` ``. -/
def httpFallbackMessage (status : Nat) (statusText : String) : String :=
  "HTTP " ++ toString status ++ ": " ++ statusText

/-- Message of the error thrown on a non-2xx response:
`errorData.detail || ⟨fallback⟩` — the `||` skips a falsy (absent or empty)
`detail`; the `message` field of the body plays no role. -/
def requestErrorMessage (resp : HttpResponse) : String :=
  let errorData := resp.errorBody.getD {}
  match errorData.detail with
  | some d => if d = "" then httpFallbackMessage resp.status resp.statusText else d
  | none => httpFallbackMessage resp.status resp.statusText

/-- `ApiClient.request`, given the response the transport produced and the
successfully-parsed body `body` for the 2xx case: resolves with the body on
a 2xx response and rejects with `requestErrorMessage` otherwise (the 401/403
side effects touch only local storage and navigation, not the thrown
error). -/
def apiRequest (resp : HttpResponse) (body : α) : Except String α :=
  if resp.ok then Except.ok body else Except.error (requestErrorMessage resp)

/-! ## Allocation field-mapping adapter (`src/services/adaptedAllocationService.ts`) -/

/-- Backend allocation record as consumed by the `any`-typed conversions:
numeric amounts arrive as decimal strings and every field of the untyped
payload may be absent at runtime. -/
structure BackendAllocation where
  id : Int
  client_id : Int
  asset_id : Int
  quantity : Option String := none
  buy_price : Option String := none
  buy_date : Option String := none
  client_name : Option String := none
  asset_ticker : Option String := none
  asset_name : Option String := none
  total_invested : Option String := none
deriving DecidableEq, Repr

/-- Frontend `AllocationWithDetails` record produced by the adapter. -/
structure AllocationWithDetails where
  id : Int
  client_id : Int
  asset_id : Int
  quantity : JsNum
  buy_price : JsNum
  buy_date : Option String
  client_name : Option String
  asset_ticker : Option String
  asset_name : Option String
  total_invested : JsNum
deriving DecidableEq, Repr

/-- The per-record conversion used by both
`RealAllocationService.getAllocations` (lines 37–48) and
`RealAllocationService.getAllocationsByClient` (lines 112–127): numeric
string fields go through bare `parseFloat`. -/
def convertBackendAllocation (ba : BackendAllocation) : AllocationWithDetails :=
  { id := ba.id
    client_id := ba.client_id
    asset_id := ba.asset_id
    quantity := jsParseFloatField ba.quantity
    buy_price := jsParseFloatField ba.buy_price
    buy_date := ba.buy_date
    client_name := ba.client_name
    asset_ticker := ba.asset_ticker
    asset_name := ba.asset_name
    total_invested := jsParseFloatField ba.total_invested }

/-- `RealAllocationService.getAllocationsByClient`, applied to the list the
backend returned for `/allocations/client/:id`. -/
def getAllocationsByClientConvert (bas : List BackendAllocation) :
    List AllocationWithDetails :=
  bas.map convertBackendAllocation

/-! ## Client data model (`types/client`: `Contact`, `Address`, `Client`)

Runtime values of the frontend shapes.  Because the backend payloads are
`any`-typed, every field that can be `undefined` at runtime (either because
the TS type marks it optional or because an unchecked backend field is
passed straight through) is an `Option`. -/

structure Contact where
  email : Option String := none
  phone : Option String := none
  mobile : Option String := none
  whatsapp : Option String := none
deriving DecidableEq, Repr

structure Address where
  street : Option String := none
  number : Option String := none
  complement : Option String := none
  neighborhood : Option String := none
  city : Option String := none
  state : Option String := none
  zipCode : Option String := none
  country : Option String := none
deriving DecidableEq, Repr

/-- Frontend `Client` record.  Enum-typed fields (`gender`,
`investmentProfile`, `investmentExperience`, `status`) are plain strings at
runtime — the TS `as` casts do not constrain the value. -/
structure Client where
  id : Option String := none
  name : Option String := none
  cpf : Option String := none
  rg : Option String := none
  birthDate : JsDate := JsDate.invalidDate
  gender : Option String := none
  contact : Contact := {}
  address : Address := {}
  investmentProfile : Option String := none
  riskTolerance : Option ℚ := none
  investmentExperience : Option String := none
  monthlyIncome : Option ℚ := none
  netWorth : Option ℚ := none
  investmentGoals : Option (List String) := none
  status : Option String := none
  createdAt : JsDate := JsDate.invalidDate
  updatedAt : JsDate := JsDate.invalidDate
  createdBy : Option String := none
  lastContactDate : Option JsDate := none
  notes : Option String := none
  tags : Option (List String) := none
  referralSource : Option String := none
deriving DecidableEq, Repr

/-- `PaginatedResponse<Client>` (`src/lib/api.ts`). -/
structure PaginatedClients where
  items : List Client
  total : Nat
  page : Nat
  totalPages : Nat
deriving DecidableEq, Repr

/-- Backend client record as consumed by the `any`-typed conversions of
`RealClientService` — snake_case keys, numeric id, every other field
possibly absent. -/
structure BackendClient where
  id : Int
  name : Option String := none
  cpf : Option String := none
  rg : Option String := none
  birth_date : Option String := none
  gender : Option String := none
  email : Option String := none
  phone : Option String := none
  mobile : Option String := none
  whatsapp : Option String := none
  street : Option String := none
  number : Option String := none
  complement : Option String := none
  neighborhood : Option String := none
  city : Option String := none
  state : Option String := none
  zip_code : Option String := none
  country : Option String := none
  investment_profile : Option String := none
  risk_tolerance : Option ℚ := none
  investment_experience : Option String := none
  monthly_income : Option ℚ := none
  net_worth : Option ℚ := none
  investment_goals : Option (List String) := none
  status : Option String := none
  created_at : Option String := none
  updated_at : Option String := none
  created_by : Option String := none
  last_contact_date : Option String := none
  notes : Option String := none
  tags : Option (List String) := none
  referral_source : Option String := none
deriving DecidableEq, Repr

/-- The per-record backend→frontend conversion inside
`RealClientService.getClients` (`adaptedClientService.ts` lines 44–89 and
the identical code in the adapter variant):
`createdAt/updatedAt` are `new Date(bc.created_at)` unconditionally, an
absent (or empty) `birth_date` falls back to `new Date()`, and only
`last_contact_date` maps to `undefined` when absent/falsy. -/
def toFrontendClientList (bc : BackendClient) : Client :=
  { id := some (toString bc.id)
    name := some (strOrDefault bc.name "")
    cpf := some (strOrDefault bc.cpf "")
    rg := bc.rg
    birthDate := if strTruthy bc.birth_date then jsNewDate bc.birth_date else JsDate.nowDate
    gender := bc.gender
    contact :=
      { email := some (strOrDefault bc.email "")
        phone := some (strOrDefault bc.phone "")
        mobile := bc.mobile
        whatsapp := bc.whatsapp }
    address :=
      { street := some (strOrDefault bc.street "")
        number := some (strOrDefault bc.number "")
        complement := bc.complement
        neighborhood := some (strOrDefault bc.neighborhood "")
        city := some (strOrDefault bc.city "")
        state := some (strOrDefault bc.state "")
        zipCode := some (strOrDefault bc.zip_code "")
        country := some (strOrDefault bc.country "Brasil") }
    investmentProfile := some (strOrDefault bc.investment_profile "not_defined")
    riskTolerance := some (nullishOr bc.risk_tolerance 5)
    investmentExperience := some (strOrDefault bc.investment_experience "beginner")
    monthlyIncome := some (nullishOr bc.monthly_income 0)
    netWorth := some (nullishOr bc.net_worth 0)
    investmentGoals := some (nullishOr bc.investment_goals [])
    status := some (strOrDefault bc.status "active")
    createdAt := jsNewDate bc.created_at
    updatedAt := jsNewDate bc.updated_at
    createdBy := some (strOrDefault bc.created_by "system")
    lastContactDate :=
      if strTruthy bc.last_contact_date then some (jsNewDate bc.last_contact_date) else none
    notes := some (strOrDefault bc.notes "")
    tags := some (nullishOr bc.tags [])
    referralSource := bc.referral_source }

/-- The backend→frontend conversion inside `RealClientService.getClient`
(`adaptedClientService.ts` lines 98–143): here `createdAt/updatedAt` fall
back to `new Date()` when absent/falsy, while `birthDate` is
`new Date(bc.birth_date)` unconditionally (an Invalid Date when absent). -/
def toFrontendClientSingle (bc : BackendClient) : Client :=
  { id := some (toString bc.id)
    name := bc.name
    cpf := bc.cpf
    rg := bc.rg
    birthDate := jsNewDate bc.birth_date
    gender := bc.gender
    contact :=
      { email := bc.email
        phone := some (strOrDefault bc.phone "")
        mobile := bc.mobile
        whatsapp := bc.whatsapp }
    address :=
      { street := some (strOrDefault bc.street "")
        number := some (strOrDefault bc.number "")
        complement := bc.complement
        neighborhood := some (strOrDefault bc.neighborhood "")
        city := some (strOrDefault bc.city "")
        state := some (strOrDefault bc.state "")
        zipCode := some (strOrDefault bc.zip_code "")
        country := some (strOrDefault bc.country "Brasil") }
    investmentProfile := some (strOrDefault bc.investment_profile "not_defined")
    riskTolerance := some (nullishOr bc.risk_tolerance 5)
    investmentExperience := some (strOrDefault bc.investment_experience "beginner")
    monthlyIncome := some (nullishOr bc.monthly_income 0)
    netWorth := some (nullishOr bc.net_worth 0)
    investmentGoals := some (nullishOr bc.investment_goals [])
    status := some (strOrDefault bc.status "active")
    createdAt := if strTruthy bc.created_at then jsNewDate bc.created_at else JsDate.nowDate
    updatedAt := if strTruthy bc.updated_at then jsNewDate bc.updated_at else JsDate.nowDate
    createdBy := some (strOrDefault bc.created_by "system")
    lastContactDate :=
      if strTruthy bc.last_contact_date then some (jsNewDate bc.last_contact_date) else none
    notes := some (strOrDefault bc.notes "")
    tags := some (nullishOr bc.tags [])
    referralSource := bc.referral_source }

/-- `RealClientService.getClients` applied to the backend response list:
the pagination metadata is derived from the returned page only
(`total: frontendClients.length`,
`totalPages: Math.ceil(frontendClients.length / limit)`). -/
def realGetClients (backendClients : List BackendClient) (page limit : Nat) :
    PaginatedClients :=
  let frontendClients := backendClients.map toFrontendClientList
  { items := frontendClients
    total := frontendClients.length
    page := page
    totalPages := mathCeilDivNat frontendClients.length limit }

/-! ## Partial client update (`RealClientService.updateClient`,
`adaptedClientService.ts` lines 222–261) -/

/-- JSON values appearing in the update payload. -/
inductive JVal where
  | s (v : String)
  | n (v : ℚ)
  | strs (vs : List String)
  | date (d : JsDate)
deriving DecidableEq, Repr

/-- `Partial<Client>` as passed to `updateClient`: `none` models a field
the caller did not set.  (A key explicitly present with value `undefined`
behaves like an absent key for the payload builder, which tests
`!== undefined`, so it is identified with `none` here.) -/
structure ClientUpdate where
  id : Option String := none
  name : Option String := none
  cpf : Option String := none
  rg : Option String := none
  birthDate : Option JsDate := none
  gender : Option String := none
  contact : Option Contact := none
  address : Option Address := none
  investmentProfile : Option String := none
  riskTolerance : Option ℚ := none
  investmentExperience : Option String := none
  monthlyIncome : Option ℚ := none
  netWorth : Option ℚ := none
  investmentGoals : Option (List String) := none
  status : Option String := none
  createdAt : Option JsDate := none
  updatedAt : Option JsDate := none
  createdBy : Option String := none
  lastContactDate : Option JsDate := none
  notes : Option String := none
  tags : Option (List String) := none
  referralSource : Option String := none
deriving DecidableEq, Repr

/-- One conditional `if (x !== undefined) backendData.k = f(x)` step. -/
def optKey (k : String) (f : α → JVal) (o : Option α) : List (String × JVal) :=
  match o with
  | some v => [(k, f v)]
  | none => []

/-- The `backendData` object assembled by `RealClientService.updateClient`
before the `PUT`, as an ordered key/value list: a key is emitted exactly
when the corresponding frontend field passed the `!== undefined` check
(for `contact`/`address`, when the sub-object is present and the sub-field
passed its own check).  `birth_date` carries
`client.birthDate.toISOString().split('T')[0]`. -/
def updateClientPayload (c : ClientUpdate) : List (String × JVal) :=
  optKey "name" JVal.s c.name ++
  optKey "cpf" JVal.s c.cpf ++
  optKey "rg" JVal.s c.rg ++
  optKey "birth_date" JVal.date c.birthDate ++
  optKey "gender" JVal.s c.gender ++
  (match c.contact with
   | some ct =>
       optKey "email" JVal.s ct.email ++
       optKey "phone" JVal.s ct.phone ++
       optKey "mobile" JVal.s ct.mobile ++
       optKey "whatsapp" JVal.s ct.whatsapp
   | none => []) ++
  (match c.address with
   | some ad =>
       optKey "street" JVal.s ad.street ++
       optKey "number" JVal.s ad.number ++
       optKey "complement" JVal.s ad.complement ++
       optKey "neighborhood" JVal.s ad.neighborhood ++
       optKey "city" JVal.s ad.city ++
       optKey "state" JVal.s ad.state ++
       optKey "zip_code" JVal.s ad.zipCode ++
       optKey "country" JVal.s ad.country
   | none => []) ++
  optKey "investment_profile" JVal.s c.investmentProfile ++
  optKey "risk_tolerance" JVal.n c.riskTolerance ++
  optKey "investment_experience" JVal.s c.investmentExperience ++
  optKey "monthly_income" JVal.n c.monthlyIncome ++
  optKey "net_worth" JVal.n c.netWorth ++
  optKey "investment_goals" JVal.strs c.investmentGoals ++
  optKey "status" JVal.s c.status ++
  optKey "notes" JVal.s c.notes ++
  optKey "tags" JVal.strs c.tags ++
  optKey "referral_source" JVal.s c.referralSource

/-- Whether emitting backend key `k` is justified by a field the caller
actually set in the partial update (the frontend→backend key mapping of
`updateClient`).  Keys outside the mapping are never justified. -/
def updateKeyJustified (c : ClientUpdate) (k : String) : Bool :=
  match k with
  | "name" => c.name.isSome
  | "cpf" => c.cpf.isSome
  | "rg" => c.rg.isSome
  | "birth_date" => c.birthDate.isSome
  | "gender" => c.gender.isSome
  | "email" => (match c.contact with | some ct => ct.email.isSome | none => false)
  | "phone" => (match c.contact with | some ct => ct.phone.isSome | none => false)
  | "mobile" => (match c.contact with | some ct => ct.mobile.isSome | none => false)
  | "whatsapp" => (match c.contact with | some ct => ct.whatsapp.isSome | none => false)
  | "street" => (match c.address with | some ad => ad.street.isSome | none => false)
  | "number" => (match c.address with | some ad => ad.number.isSome | none => false)
  | "complement" => (match c.address with | some ad => ad.complement.isSome | none => false)
  | "neighborhood" => (match c.address with | some ad => ad.neighborhood.isSome | none => false)
  | "city" => (match c.address with | some ad => ad.city.isSome | none => false)
  | "state" => (match c.address with | some ad => ad.state.isSome | none => false)
  | "zip_code" => (match c.address with | some ad => ad.zipCode.isSome | none => false)
  | "country" => (match c.address with | some ad => ad.country.isSome | none => false)
  | "investment_profile" => c.investmentProfile.isSome
  | "risk_tolerance" => c.riskTolerance.isSome
  | "investment_experience" => c.investmentExperience.isSome
  | "monthly_income" => c.monthlyIncome.isSome
  | "net_worth" => c.netWorth.isSome
  | "investment_goals" => c.investmentGoals.isSome
  | "status" => c.status.isSome
  | "notes" => c.notes.isSome
  | "tags" => c.tags.isSome
  | "referral_source" => c.referralSource.isSome
  | _ => false

/-- The partial update `{ name: 'X' }`. -/
def nameOnlyUpdate : ClientUpdate := { name := some "X" }

/-! ## Mock client service (`src/services/clientService.ts`,
`mockClientService`) -/

/-- `Omit<Client, 'id' | 'createdAt' | 'updatedAt'>` — the argument of
`createClient`. -/
structure ClientInput where
  name : Option String := none
  cpf : Option String := none
  rg : Option String := none
  birthDate : JsDate := JsDate.invalidDate
  gender : Option String := none
  contact : Contact := {}
  address : Address := {}
  investmentProfile : Option String := none
  riskTolerance : Option ℚ := none
  investmentExperience : Option String := none
  monthlyIncome : Option ℚ := none
  netWorth : Option ℚ := none
  investmentGoals : Option (List String) := none
  status : Option String := none
  createdBy : Option String := none
  lastContactDate : Option JsDate := none
  notes : Option String := none
  tags : Option (List String) := none
  referralSource : Option String := none
deriving DecidableEq, Repr

/-- One allocation row of the hand-authored `ClientWithAssets` mock. -/
structure MockAssetAllocation where
  assetId : String
  assetName : String
  assetType : String
  quantity : ℚ
  averagePrice : ℚ
  currentPrice : ℚ
  totalInvested : ℚ
  currentValue : ℚ
  returnAmount : ℚ
  returnPercentage : ℚ
deriving DecidableEq, Repr

/-- Frontend `ClientWithAssets` (a `Client` plus portfolio fields). -/
structure ClientWithAssets where
  base : Client
  totalInvested : ℚ
  currentValue : ℚ
  totalReturn : ℚ
  returnPercentage : ℚ
  allocations : List MockAssetAllocation
deriving DecidableEq, Repr

/-- First record of the hand-authored mock dataset (`mockClientService`,
`clientService.ts` lines 166–202). -/
def mockClient1 : Client :=
  { id := some "1"
    name := some "João Silva Santos"
    cpf := some "123.456.789-00"
    rg := some "12.345.678-9"
    birthDate := JsDate.ofString "1985-03-15"
    gender := some "male"
    contact :=
      { email := some "joao.silva@email.com"
        phone := some "(11) 99999-9999"
        mobile := some "(11) 88888-8888"
        whatsapp := none }
    address :=
      { street := some "Rua das Flores"
        number := some "123"
        complement := some "Apto 45"
        neighborhood := some "Centro"
        city := some "São Paulo"
        state := some "SP"
        zipCode := some "01234-567"
        country := some "Brasil" }
    investmentProfile := some "moderate"
    riskTolerance := some 5
    investmentExperience := some "intermediate"
    monthlyIncome := some 8000
    netWorth := some 150000
    investmentGoals := some ["Aposentadoria", "Casa própria"]
    status := some "active"
    createdAt := JsDate.ofString "2024-01-15"
    updatedAt := JsDate.ofString "2024-09-20"
    createdBy := some "user1"
    lastContactDate := some (JsDate.ofString "2024-09-15")
    notes := some "Cliente muito interessado em fundos imobiliários"
    tags := some ["VIP", "Potencial Alto"]
    referralSource := some "Indicação de Maria" }

/-- Second record of the mock dataset (`clientService.ts` lines 203–236). -/
def mockClient2 : Client :=
  { id := some "2"
    name := some "Maria Oliveira Costa"
    cpf := some "987.654.321-00"
    rg := none
    birthDate := JsDate.ofString "1990-07-22"
    gender := some "female"
    contact :=
      { email := some "maria.oliveira@email.com"
        phone := some "(11) 77777-7777"
        mobile := none
        whatsapp := none }
    address :=
      { street := some "Av. Paulista"
        number := some "1000"
        complement := none
        neighborhood := some "Bela Vista"
        city := some "São Paulo"
        state := some "SP"
        zipCode := some "01310-100"
        country := some "Brasil" }
    investmentProfile := some "conservative"
    riskTolerance := some 3
    investmentExperience := some "beginner"
    monthlyIncome := some 5000
    netWorth := some 50000
    investmentGoals := some ["Reserva de emergência"]
    status := some "active"
    createdAt := JsDate.ofString "2024-02-10"
    updatedAt := JsDate.ofString "2024-09-18"
    createdBy := some "user1"
    lastContactDate := some (JsDate.ofString "2024-09-10")
    notes := some "Primeira vez investindo, precisa de acompanhamento próximo"
    tags := some ["Iniciante"]
    referralSource := some "Site" }

/-- The 2-record mock client dataset. -/
def mockClients : List Client := [mockClient1, mockClient2]

/-- `mockClientService.getClients`: ignores the filters entirely and
returns the whole dataset with page-local pagination metadata. -/
def mockGetClients (page limit : Nat) : PaginatedClients :=
  { items := mockClients
    total := mockClients.length
    page := page
    totalPages := mathCeilDivNat mockClients.length limit }

/-- `mockClientService.getClient`: looks the id up in the dataset and
throws `'Cliente não encontrado'` when absent. -/
def mockGetClient (id : String) : Except String Client :=
  match mockClients.find? (fun c => c.id = some id) with
  | some c => Except.ok c
  | none => Except.error "Cliente não encontrado"

/-- `mockClientService.createClient`: spreads the input and stamps
`id = Date.now().toString()` and fresh `createdAt`/`updatedAt`; `now` is
the clock value observed. -/
def mockCreateClient (now : Nat) (c : ClientInput) : Client :=
  { id := some (toString now)
    name := c.name
    cpf := c.cpf
    rg := c.rg
    birthDate := c.birthDate
    gender := c.gender
    contact := c.contact
    address := c.address
    investmentProfile := c.investmentProfile
    riskTolerance := c.riskTolerance
    investmentExperience := c.investmentExperience
    monthlyIncome := c.monthlyIncome
    netWorth := c.netWorth
    investmentGoals := c.investmentGoals
    status := c.status
    createdAt := JsDate.nowDate
    updatedAt := JsDate.nowDate
    createdBy := c.createdBy
    lastContactDate := c.lastContactDate
    notes := c.notes
    tags := c.tags
    referralSource := c.referralSource }

/-- Object spread `{...existingClient, ...updates}`: a field present in the
update overrides the base record (setting a field to an explicit
`undefined` is not representable, see `ClientUpdate`). -/
def mergeClient (base : Client) (u : ClientUpdate) : Client :=
  { id := u.id.elim base.id some
    name := u.name.elim base.name some
    cpf := u.cpf.elim base.cpf some
    rg := u.rg.elim base.rg some
    birthDate := u.birthDate.getD base.birthDate
    gender := u.gender.elim base.gender some
    contact := u.contact.getD base.contact
    address := u.address.getD base.address
    investmentProfile := u.investmentProfile.elim base.investmentProfile some
    riskTolerance := u.riskTolerance.elim base.riskTolerance some
    investmentExperience := u.investmentExperience.elim base.investmentExperience some
    monthlyIncome := u.monthlyIncome.elim base.monthlyIncome some
    netWorth := u.netWorth.elim base.netWorth some
    investmentGoals := u.investmentGoals.elim base.investmentGoals some
    status := u.status.elim base.status some
    createdAt := u.createdAt.getD base.createdAt
    updatedAt := u.updatedAt.getD base.updatedAt
    createdBy := u.createdBy.elim base.createdBy some
    lastContactDate := u.lastContactDate.elim base.lastContactDate some
    notes := u.notes.elim base.notes some
    tags := u.tags.elim base.tags some
    referralSource := u.referralSource.elim base.referralSource some }

/-- `mockClientService.updateClient`: fetch the existing mock client (may
throw for an unknown id), spread the updates over it and stamp
`updatedAt = new Date()`. -/
def mockUpdateClient (id : String) (u : ClientUpdate) : Except String Client :=
  (mockGetClient id).map (fun base =>
    { mergeClient base u with updatedAt := JsDate.nowDate })

/-- The fixed allocations of `mockClientService.getClientWithAssets`. -/
def mockAllocations : List MockAssetAllocation :=
  [ { assetId := "ITUB4", assetName := "Itaú Unibanco PN", assetType := "Ação"
      quantity := 100, averagePrice := 25.5, currentPrice := 28
      totalInvested := 2550, currentValue := 2800
      returnAmount := 250, returnPercentage := 9.8 },
    { assetId := "HGLG11", assetName := "CSHG Logística FII", assetType := "FII"
      quantity := 200, averagePrice := 125, currentPrice := 135
      totalInvested := 25000, currentValue := 27000
      returnAmount := 2000, returnPercentage := 8 } ]

/-- `mockClientService.getClientWithAssets`: the mock client (may throw for
an unknown id) decorated with fixed portfolio figures. -/
def mockGetClientWithAssets (id : String) : Except String ClientWithAssets :=
  (mockGetClient id).map (fun c =>
    { base := c
      totalInvested := 50000
      currentValue := 55000
      totalReturn := 5000
      returnPercentage := 10
      allocations := mockAllocations })

/-! ## Resilience wrapper (`ClientServiceAdapter`, unnamed module lines
193–300)

The adapter holds a module-level flag `backendAvailable : boolean | null`.
`checkBackend` probes `/health` once when the flag is `null` and caches the
outcome; every public method checks the flag, tries the real service while
the flag holds `true`, and on a thrown live call sets the flag to `false`
and answers the current call from the mock service.  Filters/sort options
only shape the request URL and are ignored by the mock, so operations are
identified by the arguments below. -/

inductive AdapterOp where
  | getClients (page limit : Nat)
  | getClient (id : String)
  | createClient (c : ClientInput)
  | updateClient (id : String) (u : ClientUpdate)
  | deleteClient (id : String)
  | getClientWithAssets (id : String)
deriving DecidableEq, Repr

/-- Result value of an adapter operation. -/
inductive ServiceValue where
  | page (p : PaginatedClients)
  | client (c : Client)
  | unit
  | withAssets (c : ClientWithAssets)
deriving DecidableEq, Repr

/-- A service implementation, as the outcome each operation would produce
(the real service's outcomes depend on the network and stay abstract). -/
def ServiceBehavior : Type := AdapterOp → Except String ServiceValue

/-- The mock implementation behind the fallback, assembled from
`mockClientService`; `now` is the clock observed by `createClient` /
`updateClient`. -/
def mockBehavior (now : Nat) : ServiceBehavior
  | AdapterOp.getClients page limit => Except.ok (ServiceValue.page (mockGetClients page limit))
  | AdapterOp.getClient id => (mockGetClient id).map ServiceValue.client
  | AdapterOp.createClient c => Except.ok (ServiceValue.client (mockCreateClient now c))
  | AdapterOp.updateClient id u => (mockUpdateClient id u).map ServiceValue.client
  | AdapterOp.deleteClient _ => Except.ok ServiceValue.unit
  | AdapterOp.getClientWithAssets id => (mockGetClientWithAssets id).map ServiceValue.withAssets

/-- One adapter method invocation.  `health` is the (fixed) outcome the
`/health` probe would report, `st` the cached `backendAvailable` flag
(`none` = `null`).  Returns the call's outcome and the updated flag.
Matches the uniform body of the six methods: `checkBackend` resolves the
flag, the real service is tried only while the flag holds `true`, a real
failure downgrades the flag and falls through to the mock, and the mock's
own outcome (including a mock rejection) is returned as-is. -/
def adapterCall (health : Bool) (st : Option Bool)
    (real mock : Except String ServiceValue) :
    Except String ServiceValue × Option Bool :=
  let avail := st.getD health
  if avail then
    match real with
    | Except.ok v => (Except.ok v, some avail)
    | Except.error _ => (mock, some false)
  else
    (mock, some avail)

/-- A sequence of adapter calls against fixed real/mock behaviours,
threading the cached availability flag; returns the call outcomes in order
and the final flag. -/
def adapterRun (health : Bool) (real mock : ServiceBehavior) :
    List AdapterOp → Option Bool → List (Except String ServiceValue) × Option Bool
  | [], st => ([], st)
  | op :: ops, st =>
      let step := adapterCall health st (real op) (mock op)
      let rest := adapterRun health real mock ops step.2
      (step.1 :: rest.1, rest.2)

/-! ## Aggregation service (`src/services/clientInvestmentService.ts`)

`getClientInvestmentStats` combines three backend fetches; the network
outcomes are supplied through a `StatsEnv`.  `Date` parsing inside the
`buy_date` reduction is a host builtin, so the timestamp a string parses to
(`NaN` = `none`) is also part of the environment. -/

/-- Movement record fields consumed by the aggregation service (`type`,
`status` and `amount`; the remaining `MovementWithClient` fields are
carried by the backend response but never read here). -/
structure MovementRec where
  id : String
  clientId : String
  clientName : String
  type : String
  amount : ℚ
  status : String
deriving DecidableEq, Repr

/-- `MovementListResponse` summary block. -/
structure MovementListSummary where
  totalAmount : ℚ := 0
  depositAmount : ℚ := 0
  withdrawalAmount : ℚ := 0
  pendingCount : Nat := 0
deriving DecidableEq, Repr

/-- `MovementListResponse` as returned by `GET /clients/:id/movements`. -/
structure MovementListResponse where
  movements : List MovementRec
  total : Nat := 0
  page : Nat := 1
  limit : Nat := 10
  totalPages : Nat := 1
  summary : MovementListSummary := {}
deriving DecidableEq, Repr

/-- `ClientBalance` as returned by `GET /clients/:id/balance` (fields
beyond `totalBalance` are never read by the aggregation service). -/
structure ClientBalance where
  clientId : String
  availableBalance : ℚ := 0
  pendingDeposits : ℚ := 0
  pendingWithdrawals : ℚ := 0
  totalBalance : ℚ := 0
  accountStatus : String := "active"
deriving DecidableEq, Repr

/-- Derived per-client statistics (`ClientInvestmentStats`). -/
structure ClientInvestmentStats where
  client_id : String
  total_allocations : Nat
  total_invested : ℚ
  net_balance : ℚ
  last_investment_date : Option String
deriving DecidableEq, Repr

/-- Backend outcomes observed by one aggregation run: the three REST
fetches plus the timestamp each date string parses
to (`none` = Invalid Date, whose comparisons are all false). -/
structure StatsEnv where
  fetchAllocationsByClient : Option Int → Except String (List BackendAllocation)
  clientBalance : String → Except String ClientBalance
  clientMovements : String → Nat → Nat → Except String MovementListResponse
  dateValue : String → Option ℚ

/-- `new Date(a) > new Date(b)` on two date strings: comparisons involving
an invalid date are false. -/
def dateGt (env : StatsEnv) (a b : String) : Bool :=
  match env.dateValue a, env.dateValue b with
  | some x, some y => x > y
  | _, _ => false

/-- `allocationService.getAllocationsByClient` as seen from the aggregation
service: backend response converted through the field-mapping adapter. -/
def allocationsByClient (env : StatsEnv) (cid : Option Int) :
    Except String (List AllocationWithDetails) :=
  (env.fetchAllocationsByClient cid).map getAllocationsByClientConvert

/-- The zeroed default statistics record produced by the catch branch. -/
def zeroStats (clientId : String) : ClientInvestmentStats :=
  { client_id := clientId
    total_allocations := 0
    total_invested := 0
    net_balance := 0
    last_investment_date := none }

/-- Body of the `try` block of
`ClientInvestmentService.getClientInvestmentStats` (lines 11–44): the three
sequential awaits, the completed-deposit sum, and the `buy_date`
reduction.  `buy_date` strings reaching the reduction come from the
adapter, which passes the possibly-absent backend string through; an
absent one behaves as the string rendering of `undefined` in `new Date`,
modelled by an unparseable string. -/
def computeStats (env : StatsEnv) (clientId : String) :
    Except String ClientInvestmentStats := do
  let allocations ← allocationsByClient env (jsParseInt clientId)
  let balance ← env.clientBalance clientId
  let movements ← env.clientMovements clientId 1 1000
  let totalDeposits :=
    (movements.movements.filter
      (fun m => m.type = "deposit" && m.status = "completed")).foldl
      (fun sum m => sum + m.amount) 0
  let totalAllocations := allocations.length
  let netBalance := balance.totalBalance
  let lastInvestmentDate :=
    match allocations with
    | [] => none
    | a0 :: _ =>
        some (allocations.foldl
          (fun latest a =>
            match a.buy_date with
            | some d => if dateGt env d (latest) then d else latest
            | none => latest)
          (a0.buy_date.getD "undefined"))
  pure
    { client_id := clientId
      total_allocations := totalAllocations
      total_invested := totalDeposits
      net_balance := netBalance
      last_investment_date := lastInvestmentDate }

/-- `getClientInvestmentStats`: the `try` body with its catch-all converting
any failure into the zeroed default — the returned promise never rejects. -/
def getClientInvestmentStats (env : StatsEnv) (clientId : String) :
    ClientInvestmentStats :=
  match computeStats env clientId with
  | Except.ok s => s
  | Except.error _ => zeroStats clientId

/-- `clientIds.slice(i, i + 5)` batching of the multi-client loop. -/
def toBatches (l : List String) : List (List String) :=
  if l.isEmpty then []
  else l.take 5 :: toBatches (l.drop 5)
termination_by l.length
decreasing_by
  cases l with
  | nil => simp_all
  | cons a t => simp [List.length_drop]; omega

/-- `Map.set` on an insertion-ordered string-keyed map: overwriting keeps
the original position, a fresh key is appended. -/
def mapSet (m : List (String × ClientInvestmentStats)) (k : String)
    (v : ClientInvestmentStats) : List (String × ClientInvestmentStats) :=
  if m.any (fun p => p.1 = k) then
    m.map (fun p => if p.1 = k then (k, v) else p)
  else
    m ++ [(k, v)]

/-- `Map.get`. -/
def mapGet (m : List (String × ClientInvestmentStats)) (k : String) :
    Option ClientInvestmentStats :=
  (m.find? (fun p => p.1 = k)).map Prod.snd

/-- One iteration of the batch loop: the batch's per-client computations
(each total, so the `Promise.all` settles with one record per id and the
defensive catch branch is unreachable) inserted into the accumulating map
keyed by `stats.client_id`. -/
def processBatch (env : StatsEnv) (m : List (String × ClientInvestmentStats))
    (batch : List String) : List (String × ClientInvestmentStats) :=
  (batch.map (fun cid => getClientInvestmentStats env cid)).foldl
    (fun acc s => mapSet acc s.client_id s) m

/-- `ClientInvestmentService.getMultipleClientInvestmentStats` (lines
61–91): sequential batches of 5, results accumulated in an
insertion-ordered map. -/
def getMultipleClientInvestmentStats (env : StatsEnv) (clientIds : List String) :
    List (String × ClientInvestmentStats) :=
  (toBatches clientIds).foldl (processBatch env) []

/-! ## Concrete instances used by counterexamples and witnesses -/

/-- A backend allocation whose `quantity` string is malformed. -/
def badBackendAllocation : BackendAllocation :=
  { id := 1, client_id := 1, asset_id := 1
    quantity := some "abc"
    buy_price := some "100.50"
    buy_date := some "2024-01-10"
    client_name := some "João Silva Santos"
    asset_ticker := some "PETR4"
    asset_name := some "Petrobras PN"
    total_invested := none }

/-- A backend client record with all four date fields absent. -/
def bcNoDates : BackendClient := { id := 3, name := some "Cliente Sem Datas" }

/-- A non-2xx response whose JSON body carries only a `message` field. -/
def respMessageOnly : HttpResponse :=
  { ok := false, status := 400, statusText := "Bad Request"
    errorBody := some { message := some "oops" } }

/-- A non-2xx response whose JSON body carries a `detail` field. -/
def respDetail : HttpResponse :=
  { ok := false, status := 422, statusText := "Unprocessable Entity"
    errorBody := some { detail := some "CPF inválido" } }

/-- A real service whose every call throws. -/
def realAlwaysFails : ServiceBehavior := fun _ => Except.error "Network Error"

/-- Three consecutive calls of each of the six wrapped methods. -/
def sixOpsThrice : List AdapterOp :=
  [AdapterOp.getClients 1 10, AdapterOp.getClients 1 10, AdapterOp.getClients 1 10,
   AdapterOp.getClient "1", AdapterOp.getClient "1", AdapterOp.getClient "1",
   AdapterOp.createClient {}, AdapterOp.createClient {}, AdapterOp.createClient {},
   AdapterOp.updateClient "1" nameOnlyUpdate, AdapterOp.updateClient "1" nameOnlyUpdate,
   AdapterOp.updateClient "1" nameOnlyUpdate,
   AdapterOp.deleteClient "1", AdapterOp.deleteClient "1", AdapterOp.deleteClient "1",
   AdapterOp.getClientWithAssets "1", AdapterOp.getClientWithAssets "1",
   AdapterOp.getClientWithAssets "1"]

/-- The movement page of the C4 scenario: two completed deposits (100.00,
50.00) and one pending deposit (9999.00). -/
def movListC4 : MovementListResponse :=
  { movements :=
      [ { id := "m1", clientId := "1", clientName := "João Silva", type := "deposit"
          amount := 100, status := "completed" },
        { id := "m2", clientId := "1", clientName := "João Silva", type := "deposit"
          amount := 50, status := "completed" },
        { id := "m3", clientId := "1", clientName := "João Silva", type := "deposit"
          amount := 9999, status := "pending" } ] }

/-- Environment of the C4 scenario: every fetch succeeds, client 1 has the
three deposits above and no allocations. -/
def envC4 : StatsEnv :=
  { fetchAllocationsByClient := fun _ => Except.ok []
    clientBalance := fun cid => Except.ok { clientId := cid, totalBalance := 150 }
    clientMovements := fun _ _ _ => Except.ok movListC4
    dateValue := fun _ => none }

/-- Environment where the balance fetch fails for client "7" only. -/
def envBalanceFails : StatsEnv :=
  { fetchAllocationsByClient := fun _ => Except.ok []
    clientBalance := fun cid =>
      if cid = "7" then Except.error "HTTP 500: Internal Server Error"
      else Except.ok { clientId := cid, totalBalance := 42 }
    clientMovements := fun _ _ _ => Except.ok { movements := [] }
    dateValue := fun _ => none }

/-! ## Helper lemmas -/

/-- `mathCeilDivNat` computes the mathematical ceiling of `a / b`. -/
theorem mathCeilDivNat_eq_ceil (a b : Nat) (hb : 0 < b) :
    (mathCeilDivNat a b : ℤ) = Int.ceil ((a : ℚ) / (b : ℚ)) := by
  have hb0 : (0 : ℚ) < (b : ℚ) := by exact_mod_cast hb
  symm
  rw [Int.ceil_eq_iff]
  have hf1 : mathCeilDivNat a b * b ≤ a + b - 1 := Nat.div_mul_le_self _ _
  have hf2 : a + b - 1 < (mathCeilDivNat a b + 1) * b :=
    (Nat.div_lt_iff_lt_mul hb).mp (Nat.lt_succ_self _)
  rw [add_mul, one_mul] at hf2
  have h1 : a ≤ mathCeilDivNat a b * b := by omega
  have h2q : (mathCeilDivNat a b : ℚ) * b ≤ (a : ℚ) + b - 1 := by
    have hc : ((mathCeilDivNat a b * b : ℕ) : ℚ) ≤ ((a + b - 1 : ℕ) : ℚ) := by
      exact_mod_cast hf1
    push_cast [Nat.cast_sub (by omega : 1 ≤ a + b)] at hc
    linarith
  have hb1 : (1 : ℚ) ≤ (b : ℚ) := by exact_mod_cast hb
  constructor
  · rw [lt_div_iff₀ hb0]
    push_cast
    nlinarith
  · rw [div_le_iff₀ hb0]
    push_cast
    exact_mod_cast h1

/-- `mathCeilDivNat l l = 1` for positive `l` (a full page is one page). -/
theorem mathCeilDivNat_self (l : Nat) (hl : 0 < l) : mathCeilDivNat l l = 1 := by
  unfold mathCeilDivNat
  have h1 : (l + l - 1) / l < 2 := by
    rw [Nat.div_lt_iff_lt_mul hl]; omega
  have h2 : 1 ≤ (l + l - 1) / l := by
    rw [Nat.le_div_iff_mul_le hl]; omega
  omega

theorem optKey_keys_all {α : Type} (k : String) (f : α → JVal) (o : Option α)
    (P : String → Bool) (h : o.isSome = true → P k = true) :
    ((optKey k f o).map Prod.fst).all P = true := by
  cases o with
  | none => rfl
  | some v =>
      simp only [optKey, List.map_cons, List.map_nil, List.all_cons, List.all_nil,
        Bool.and_true]
      exact h rfl

/-! ## Claim theorems -/

/-- C10: for every successful `getClients` call on the real client adapter,
the pagination metadata is derived from the current page only — `total`
equals the number of items in the returned page (the length of the backend
list, not the backend's true record count) and `totalPages` equals
`ceil(items.length / limit)` — so whenever a full page of `limit` records
is returned, `totalPages` is `1`. -/
theorem claim_C10_pagination_from_page_only
    (bcs : List BackendClient) (page limit : Nat) (h : 0 < limit) :
    (realGetClients bcs page limit).total = (realGetClients bcs page limit).items.length ∧
    (realGetClients bcs page limit).total = bcs.length ∧
    ((realGetClients bcs page limit).totalPages : ℤ) =
      Int.ceil (((realGetClients bcs page limit).items.length : ℚ) / (limit : ℚ)) ∧
    ((realGetClients bcs page limit).items.length = limit →
      (realGetClients bcs page limit).totalPages = 1) := by
  refine ⟨rfl, by simp [realGetClients], ?_, ?_⟩
  · exact mathCeilDivNat_eq_ceil (bcs.map toFrontendClientList).length limit h
  · intro hlen
    show mathCeilDivNat (bcs.map toFrontendClientList).length limit = 1
    rw [show (bcs.map toFrontendClientList).length = limit from hlen]
    exact mathCeilDivNat_self limit h

/-- Witness for C10: a concrete full page — two backend records with
`limit = 2` — yields `totalPages = 1`. -/
theorem claim_C10_pagination_from_page_only_witness :
    (realGetClients [{ id := 1 }, { id := 2 }] 1 2).totalPages = 1 :=
  (claim_C10_pagination_from_page_only [{ id := 1 }, { id := 2 }] 1 2
    (by decide)).2.2.2 rfl

/-- C5: when the health probe fails, the first `getClients()` call on the
resilience wrapper resolves — whatever the real service would have done —
with the 2-record mock client dataset, not an empty list and not an
error. -/
theorem claim_C5_probe_failure_mock_dataset (real : ServiceBehavior) (now : Nat) :
    (adapterRun false real (mockBehavior now) [AdapterOp.getClients 1 10] none).1 =
      [Except.ok (ServiceValue.page
        { items := mockClients, total := 2, page := 1, totalPages := 1 })] ∧
    mockClients.length = 2 :=
  ⟨rfl, rfl⟩

/-- C7 counterexample: a backend allocation whose `quantity` string is the
malformed `"abc"` is converted to a record whose `quantity` is `NaN`
(`none`), not the claimed default `0`. -/
theorem claim_C7_parse_counterexample :
    (convertBackendAllocation badBackendAllocation).quantity = (none : JsNum) ∧
    (convertBackendAllocation badBackendAllocation).quantity ≠ some (0 : ℚ) := by
  refine ⟨rfl, ?_⟩
  have hq : (convertBackendAllocation badBackendAllocation).quantity = (none : JsNum) := rfl
  rw [hq]
  simp

/-- C7 amended: the numeric string fields (`quantity`, `buy_price`,
`total_invested`) are parsed with `parseFloat` at the adapter boundary; a
parse failure (malformed or missing string) does not throw, but yields
`NaN` — not the default `0` — in the returned frontend record. -/
theorem claim_C7_parse_amended (ba : BackendAllocation) :
    (convertBackendAllocation ba).quantity = jsParseFloatField ba.quantity ∧
    (convertBackendAllocation ba).buy_price = jsParseFloatField ba.buy_price ∧
    (convertBackendAllocation ba).total_invested = jsParseFloatField ba.total_invested ∧
    (jsParseFloatField ba.quantity = none →
      (convertBackendAllocation ba).quantity = none ∧
      (convertBackendAllocation ba).quantity ≠ some (0 : ℚ)) := by
  have hq : (convertBackendAllocation ba).quantity = jsParseFloatField ba.quantity := rfl
  refine ⟨hq, rfl, rfl, fun hnan => ⟨hq.trans hnan, ?_⟩⟩
  rw [hq, hnan]
  simp

/-- Witness for the amended C7 at the malformed record. -/
theorem claim_C7_parse_amended_witness :
    (convertBackendAllocation badBackendAllocation).quantity = none ∧
    (convertBackendAllocation badBackendAllocation).quantity ≠ some (0 : ℚ) :=
  (claim_C7_parse_amended badBackendAllocation).2.2.2 (by decide)

/-- C8 counterexample: on a backend record with all date fields absent,
the list conversion fabricates a current-time `birthDate` and an invalid
`createdAt`, and the single-record conversion produces an invalid
`birthDate` — only `lastContactDate` becomes `undefined`. -/
theorem claim_C8_dates_counterexample :
    (toFrontendClientList bcNoDates).birthDate = JsDate.nowDate ∧
    (toFrontendClientList bcNoDates).createdAt = JsDate.invalidDate ∧
    (toFrontendClientSingle bcNoDates).birthDate = JsDate.invalidDate ∧
    (toFrontendClientSingle bcNoDates).createdAt = JsDate.nowDate ∧
    (toFrontendClientList bcNoDates).lastContactDate = none := by
  decide

/-- C8 amended: of the four date fields, only an absent
`last_contact_date` maps to `undefined`; an absent `birth_date` yields a
fabricated current-time date in the list conversion and an invalid date in
the single-record conversion, while absent `created_at`/`updated_at` yield
invalid dates in the list conversion and fabricated current-time dates in
the single-record conversion. -/
theorem claim_C8_dates_amended (bc : BackendClient) :
    (bc.last_contact_date = none →
      (toFrontendClientList bc).lastContactDate = none ∧
      (toFrontendClientSingle bc).lastContactDate = none) ∧
    (bc.birth_date = none →
      (toFrontendClientList bc).birthDate = JsDate.nowDate ∧
      (toFrontendClientSingle bc).birthDate = JsDate.invalidDate) ∧
    (bc.created_at = none →
      (toFrontendClientList bc).createdAt = JsDate.invalidDate ∧
      (toFrontendClientSingle bc).createdAt = JsDate.nowDate) ∧
    (bc.updated_at = none →
      (toFrontendClientList bc).updatedAt = JsDate.invalidDate ∧
      (toFrontendClientSingle bc).updatedAt = JsDate.nowDate) := by
  refine ⟨fun h => ?_, fun h => ?_, fun h => ?_, fun h => ?_⟩ <;>
    simp [toFrontendClientList, toFrontendClientSingle, strTruthy, jsNewDate, h]

/-- Witness for the amended C8 at the record with absent dates. -/
theorem claim_C8_dates_amended_witness :
    (toFrontendClientList bcNoDates).lastContactDate = none ∧
    (toFrontendClientSingle bcNoDates).birthDate = JsDate.invalidDate :=
  ⟨((claim_C8_dates_amended bcNoDates).1 rfl).1,
   ((claim_C8_dates_amended bcNoDates).2.1 rfl).2⟩

/-- C9 counterexample: a 400 response whose JSON body carries only a
`message` field (`"oops"`) is surfaced with the generic
`"HTTP 400: Bad Request"` fallback, not with `"oops"` — the wrapper never
consults the `message` field. -/
theorem claim_C9_error_message_counterexample :
    (respMessageOnly.errorBody.getD {}).message = some "oops" ∧
    requestErrorMessage respMessageOnly = "HTTP 400: Bad Request" ∧
    requestErrorMessage respMessageOnly ≠ "oops" ∧
    apiRequest respMessageOnly () = (Except.error "HTTP 400: Bad Request" : Except String Unit) := by
  refine ⟨rfl, by decide, by decide, ?_⟩
  have h : requestErrorMessage respMessageOnly = "HTTP 400: Bad Request" := by decide
  show Except.error (requestErrorMessage respMessageOnly) = _
  rw [h]

/-- C9 amended: on a non-2xx response the wrapper throws an error whose
message is the `detail` field of the JSON error body when that field is
present and non-empty, and otherwise — including when only a `message`
field is present — the generic `"HTTP <status>: <statusText>"` fallback. -/
theorem claim_C9_error_message_amended {α : Type} (resp : HttpResponse) (body : α)
    (h : resp.ok = false) :
    apiRequest resp body = Except.error (requestErrorMessage resp) ∧
    (∀ d, (resp.errorBody.getD {}).detail = some d → d ≠ "" →
      requestErrorMessage resp = d) ∧
    ((resp.errorBody.getD {}).detail = none ∨ (resp.errorBody.getD {}).detail = some "" →
      requestErrorMessage resp = httpFallbackMessage resp.status resp.statusText) := by
  refine ⟨by simp [apiRequest, h], ?_, ?_⟩
  · intro d hd hne
    simp [requestErrorMessage, hd, hne]
  · rintro (hd | hd) <;> simp [requestErrorMessage, hd]

/-- Witness for the amended C9: a 422 with a `detail` body surfaces that
message; the `message`-only 400 gets the fallback. -/
theorem claim_C9_error_message_amended_witness :
    apiRequest respDetail (0 : Nat) = Except.error "CPF inválido" ∧
    requestErrorMessage respMessageOnly = httpFallbackMessage 400 "Bad Request" := by
  constructor
  · have h := claim_C9_error_message_amended respDetail (0 : Nat) rfl
    rw [h.1, h.2.1 "CPF inválido" rfl (by decide)]
  · exact (claim_C9_error_message_amended respMessageOnly (0 : Nat) rfl).2.2 (Or.inl rfl)

/-- C6: `updateClient` emits a backend payload containing keys only for
the fields the caller actually set — a frontend field left `undefined`
never produces a backend key — and in particular
`updateClient(id, { name: 'X' })` produces a payload whose only key is
`name`. -/
theorem claim_C6_partial_update_payload (c : ClientUpdate) :
    ((updateClientPayload c).map Prod.fst).all (fun k => updateKeyJustified c k) = true ∧
    updateClientPayload nameOnlyUpdate = [("name", JVal.s "X")] := by
  refine ⟨?_, rfl⟩
  simp only [updateClientPayload, List.map_append, List.all_append, Bool.and_eq_true]
  repeat' apply And.intro
  all_goals first
    | exact optKey_keys_all _ _ _ _ (fun hs => hs)
    | (cases hct : c.contact with
       | none => rfl
       | some ct =>
           simp only [List.map_append, List.all_append, Bool.and_eq_true]
           repeat' apply And.intro
           all_goals
             apply optKey_keys_all
             intro hs
             simp [updateKeyJustified, hct, hs])
    | (cases had : c.address with
       | none => rfl
       | some ad =>
           simp only [List.map_append, List.all_append, Bool.and_eq_true]
           repeat' apply And.intro
           all_goals
             apply optKey_keys_all
             intro hs
             simp [updateKeyJustified, had, hs])

/-! ## Helper lemmas for the adapter and the aggregation service -/

theorem adapterCall_real_error (health : Bool) (st : Option Bool)
    (real mock : Except String ServiceValue) (e : String)
    (he : real = Except.error e) :
    adapterCall health st real mock = (mock, some false) := by
  rw [he]
  unfold adapterCall
  cases hb : st.getD health <;> simp [hb]

theorem computeStats_client_id (env : StatsEnv) (cid : String)
    (s : ClientInvestmentStats) (h : computeStats env cid = Except.ok s) :
    s.client_id = cid := by
  unfold computeStats at h
  cases ha : allocationsByClient env (jsParseInt cid) with
  | error e => rw [ha] at h; simp [Bind.bind, Except.bind] at h
  | ok allocs =>
      rw [ha] at h
      cases hb : env.clientBalance cid with
      | error e => rw [hb] at h; simp [Bind.bind, Except.bind] at h
      | ok bal =>
          rw [hb] at h
          cases hm : env.clientMovements cid 1 1000 with
          | error e => rw [hm] at h; simp [Bind.bind, Except.bind] at h
          | ok mov =>
              rw [hm] at h
              simp only [Bind.bind, Except.bind, pure, Except.pure, Except.ok.injEq] at h
              rw [← h]

theorem getClientInvestmentStats_client_id (env : StatsEnv) (cid : String) :
    (getClientInvestmentStats env cid).client_id = cid := by
  unfold getClientInvestmentStats
  cases h : computeStats env cid with
  | error e => rfl
  | ok s => exact computeStats_client_id env cid s h

theorem mapSet_keys (m : List (String × ClientInvestmentStats)) (k : String)
    (v : ClientInvestmentStats) :
    (mapSet m k v).map Prod.fst =
      if m.any (fun p => p.1 = k) then m.map Prod.fst else m.map Prod.fst ++ [k] := by
  unfold mapSet
  split
  · rw [List.map_map]
    apply List.map_congr_left
    intro p _
    by_cases hpk : p.1 = k
    · simp [Function.comp, hpk]
    · simp [Function.comp, hpk]
  · simp

theorem mem_mapSet_keys (m : List (String × ClientInvestmentStats)) (k : String)
    (v : ClientInvestmentStats) (a : String) :
    a ∈ (mapSet m k v).map Prod.fst ↔ a = k ∨ a ∈ m.map Prod.fst := by
  rw [mapSet_keys]
  split
  · next h =>
      constructor
      · exact Or.inr
      · rintro (rfl | ha)
        · rw [List.any_eq_true] at h
          obtain ⟨p, hp, hpk⟩ := h
          rw [decide_eq_true_eq] at hpk
          exact List.mem_map.mpr ⟨p, hp, hpk⟩
        · exact ha
  · simp [or_comm]

theorem mapSet_keys_nodup (m : List (String × ClientInvestmentStats)) (k : String)
    (v : ClientInvestmentStats) (h : (m.map Prod.fst).Nodup) :
    ((mapSet m k v).map Prod.fst).Nodup := by
  rw [mapSet_keys]
  split
  · exact h
  · next hany =>
      rw [List.nodup_append]
      refine ⟨h, List.nodup_singleton k, ?_⟩
      intro a ha hk
      rw [List.mem_singleton] at hk
      subst hk
      obtain ⟨p, hp, hpk⟩ := List.mem_map.mp ha
      exact hany (List.any_eq_true.mpr ⟨p, hp, by simp [hpk]⟩)

theorem find?_overwrite (m : List (String × ClientInvestmentStats)) (k a : String)
    (v : ClientInvestmentStats) (hne : a ≠ k) :
    (m.map (fun p => if p.1 = k then (k, v) else p)).find? (fun p => p.1 = a) =
      m.find? (fun p => p.1 = a) := by
  induction m with
  | nil => rfl
  | cons p t ih =>
      rw [List.map_cons]
      by_cases hpk : p.1 = k
      · rw [if_pos hpk]
        rw [List.find?_cons_of_neg _ (by simp [Ne.symm hne]),
          List.find?_cons_of_neg _ (by simp [hpk, Ne.symm hne])]
        exact ih
      · rw [if_neg hpk]
        by_cases hpa : p.1 = a
        · rw [List.find?_cons_of_pos _ (by simp [hpa]),
            List.find?_cons_of_pos _ (by simp [hpa])]
        · rw [List.find?_cons_of_neg _ (by simp [hpa]),
            List.find?_cons_of_neg _ (by simp [hpa])]
          exact ih

theorem mapGet_mapSet_self (m : List (String × ClientInvestmentStats)) (k : String)
    (v : ClientInvestmentStats) : mapGet (mapSet m k v) k = some v := by
  unfold mapGet mapSet
  split
  · next h =>
      induction m with
      | nil => simp at h
      | cons p t ih =>
          rw [List.map_cons]
          by_cases hpk : p.1 = k
          · rw [if_pos hpk, List.find?_cons_of_pos _ (by simp)]
            rfl
          · rw [if_neg hpk, List.find?_cons_of_neg _ (by simp [hpk])]
            apply ih
            rw [List.any_cons] at h
            simpa [hpk] using h
  · next h =>
      rw [List.find?_append]
      have hnone : m.find? (fun p => p.1 = k) = none := by
        rw [List.find?_eq_none]
        intro x hx hxk
        rw [decide_eq_true_eq] at hxk
        exact h (List.any_eq_true.mpr ⟨x, hx, by simp [hxk]⟩)
      rw [hnone]
      simp [List.find?_cons_of_pos]

theorem mapGet_mapSet_ne (m : List (String × ClientInvestmentStats)) (k : String)
    (v : ClientInvestmentStats) (a : String) (hne : a ≠ k) :
    mapGet (mapSet m k v) a = mapGet m a := by
  unfold mapGet mapSet
  split
  · rw [find?_overwrite m k a v hne]
  · rw [List.find?_append]
    have hnone : List.find? (fun p => p.1 = a) [(k, v)] = none := by
      rw [List.find?_eq_none]
      intro x hx hxk
      rw [List.mem_singleton] at hx
      subst hx
      rw [decide_eq_true_eq] at hxk
      exact hne hxk.symm
    rw [hnone, Option.or_none]

theorem toBatches_flatten (l : List String) : (toBatches l).flatten = l := by
  generalize hn : l.length = n
  induction n using Nat.strong_induction_on generalizing l with
  | _ n ih =>
      rw [toBatches]
      by_cases h : l.isEmpty
      · rw [if_pos h]
        simp [List.isEmpty_iff.mp h]
      · rw [if_neg h]
        rw [List.flatten_cons]
        subst hn
        rw [ih (l.drop 5).length ?_ (l.drop 5) rfl]
        · exact List.take_append_drop 5 l
        · have hne : l ≠ [] := by simpa [List.isEmpty_iff] using h
          have hpos : 0 < l.length := List.length_pos.mpr hne
          simp only [List.length_drop]
          omega

theorem getMultiple_eq_foldl (env : StatsEnv) (ids : List String) :
    getMultipleClientInvestmentStats env ids =
      ids.foldl (fun acc cid => mapSet acc cid (getClientInvestmentStats env cid)) [] := by
  unfold getMultipleClientInvestmentStats
  have hpb : ∀ (m : List (String × ClientInvestmentStats)) (batch : List String),
      processBatch env m batch =
        batch.foldl (fun acc cid => mapSet acc cid (getClientInvestmentStats env cid)) m := by
    intro m batch
    unfold processBatch
    rw [List.foldl_map]
    apply List.foldl_ext
    intro acc cid _
    rw [getClientInvestmentStats_client_id]
  rw [List.foldl_ext (processBatch env)
    (fun m batch => batch.foldl
      (fun acc cid => mapSet acc cid (getClientInvestmentStats env cid)) m)
    [] (fun m batch _ => hpb m batch)]
  rw [← List.foldl_flatten, toBatches_flatten]

theorem foldl_mapSet_keys (env : StatsEnv) (ids : List String)
    (m : List (String × ClientInvestmentStats)) :
    (∀ a, a ∈ ((ids.foldl
        (fun acc cid => mapSet acc cid (getClientInvestmentStats env cid)) m).map Prod.fst) ↔
      a ∈ m.map Prod.fst ∨ a ∈ ids) ∧
    ((m.map Prod.fst).Nodup →
      ((ids.foldl
        (fun acc cid => mapSet acc cid (getClientInvestmentStats env cid)) m).map Prod.fst).Nodup) := by
  induction ids generalizing m with
  | nil => simp
  | cons cid ids ih =>
      constructor
      · intro a
        rw [List.foldl_cons,
          (ih (mapSet m cid (getClientInvestmentStats env cid))).1 a,
          mem_mapSet_keys, List.mem_cons]
        tauto
      · intro hm
        rw [List.foldl_cons]
        exact (ih _).2 (mapSet_keys_nodup _ _ _ hm)

theorem foldl_mapSet_get (env : StatsEnv) (ids : List String)
    (m : List (String × ClientInvestmentStats)) (id : String)
    (hid : id ∈ ids ∨ mapGet m id = some (getClientInvestmentStats env id)) :
    mapGet (ids.foldl
      (fun acc cid => mapSet acc cid (getClientInvestmentStats env cid)) m) id =
      some (getClientInvestmentStats env id) := by
  induction ids generalizing m with
  | nil =>
      rw [List.foldl_nil]
      rcases hid with h | h
      · simp at h
      · exact h
  | cons cid ids ih =>
      rw [List.foldl_cons]
      apply ih
      by_cases hic : id = cid
      · subst hic
        exact Or.inr (mapGet_mapSet_self m id _)
      · rcases hid with h | h
        · rcases List.mem_cons.mp h with h1 | h1
          · exact absurd h1 hic
          · exact Or.inl h1
        · exact Or.inr ((mapGet_mapSet_ne m cid _ id hic).trans h)

/-- C1: for the resilience wrapper, given a real service whose every call
throws, every adapter call resolves with exactly the mock implementation's
result — in particular each of the six wrapped methods resolves with the
mock value across any number of consecutive calls — and after the first
call the cached backend-availability flag is `false` and stays `false` for
the module's lifetime. -/
theorem claim_C1_resilience_fallback (health : Bool) (real mock : ServiceBehavior)
    (hreal : ∀ op, ∃ e, real op = Except.error e) (ops : List AdapterOp)
    (st : Option Bool) :
    (adapterRun health real mock ops st).1 = ops.map mock ∧
    (ops ≠ [] → (adapterRun health real mock ops st).2 = some false) := by
  induction ops generalizing st with
  | nil => exact ⟨rfl, fun hc => absurd rfl hc⟩
  | cons op ops ih =>
      obtain ⟨e, he⟩ := hreal op
      have hstep := adapterCall_real_error health st (real op) (mock op) e he
      constructor
      · show (adapterRun health real mock (op :: ops) st).1 = mock op :: ops.map mock
        simp only [adapterRun, hstep]
        exact congrArg (mock op :: ·) (ih (some false)).1
      · intro _
        simp only [adapterRun, hstep]
        cases ops with
        | nil => rfl
        | cons op2 ops2 => exact (ih (some false)).2 (by simp)

/-- Witness for C1: against an always-throwing real service, three
consecutive calls of each of the six wrapped methods all resolve with the
mock implementation's results (no rejection), and the availability flag
ends up `false`. -/
theorem claim_C1_resilience_fallback_witness :
    (adapterRun true realAlwaysFails (mockBehavior 1733000000000) sixOpsThrice none).1 =
      sixOpsThrice.map (mockBehavior 1733000000000) ∧
    (adapterRun true realAlwaysFails (mockBehavior 1733000000000) sixOpsThrice none).2 =
      some false ∧
    ((adapterRun true realAlwaysFails (mockBehavior 1733000000000) sixOpsThrice none).1.all
      Except.isOk) = true := by
  have h := claim_C1_resilience_fallback true realAlwaysFails (mockBehavior 1733000000000)
    (fun op => ⟨"Network Error", rfl⟩) sixOpsThrice none
  refine ⟨h.1, h.2 (by simp [sixOpsThrice]), ?_⟩
  rw [h.1]
  decide

/-- C2: `getMultipleClientInvestmentStats` returns a mapping whose key set
exactly equals the set of requested ids — every requested id present
exactly once, no omissions, no extra keys — for every input list (in
particular for sizes 0, 1, 5, 6 and 23). -/
theorem claim_C2_batch_completeness (env : StatsEnv) (ids : List String) :
    ((getMultipleClientInvestmentStats env ids).map Prod.fst).Nodup ∧
    (∀ k, k ∈ (getMultipleClientInvestmentStats env ids).map Prod.fst ↔ k ∈ ids) := by
  rw [getMultiple_eq_foldl]
  refine ⟨(foldl_mapSet_keys env ids []).2 (by simp), fun k => ?_⟩
  rw [(foldl_mapSet_keys env ids []).1 k]
  simp

/-- C3: if any of the three underlying fetches fails for a client, the
single-client statistics computation resolves with the zeroed record for
that client (never a rejection — the function is total by construction),
and every other client in the same batch keeps its own computed value. -/
theorem claim_C3_per_client_failure_isolation (env : StatsEnv) (cid : String)
    (hfail : (∃ e, env.fetchAllocationsByClient (jsParseInt cid) = Except.error e) ∨
             (∃ e, env.clientBalance cid = Except.error e) ∨
             (∃ e, env.clientMovements cid 1 1000 = Except.error e)) :
    getClientInvestmentStats env cid = zeroStats cid ∧
    (∀ ids id, id ∈ ids → id ≠ cid →
      mapGet (getMultipleClientInvestmentStats env ids) id =
        some (getClientInvestmentStats env id)) := by
  constructor
  · unfold getClientInvestmentStats computeStats allocationsByClient
    rcases hfail with ⟨e, he⟩ | ⟨e, he⟩ | ⟨e, he⟩
    · rw [he]
      rfl
    · cases ha : env.fetchAllocationsByClient (jsParseInt cid) with
      | error e2 => rfl
      | ok allocs => rw [he]; rfl
    · cases ha : env.fetchAllocationsByClient (jsParseInt cid) with
      | error e2 => rfl
      | ok allocs =>
          cases hb : env.clientBalance cid with
          | error e2 => rfl
          | ok bal => rw [he]; rfl
  · intro ids id hmem _
    rw [getMultiple_eq_foldl]
    exact foldl_mapSet_get env ids [] id (Or.inl hmem)

/-- Witness for C3: with a backend whose balance endpoint fails for client
"7" only, client "7" gets the zeroed record while client "8" in the same
batch keeps its own value. -/
theorem claim_C3_per_client_failure_isolation_witness :
    getClientInvestmentStats envBalanceFails "7" = zeroStats "7" ∧
    mapGet (getMultipleClientInvestmentStats envBalanceFails ["7", "8"]) "8" =
      some (getClientInvestmentStats envBalanceFails "8") := by
  have h := claim_C3_per_client_failure_isolation envBalanceFails "7"
    (Or.inr (Or.inl ⟨"HTTP 500: Internal Server Error", rfl⟩))
  exact ⟨h.1, h.2 ["7", "8"] "8" (by simp) (by decide)⟩

/-- C4: on the successful single-client path, `total_invested` equals the
sum of amounts over exactly those movements whose type is `deposit` and
whose status is `completed`. -/
theorem claim_C4_total_invested_completed_deposits (env : StatsEnv) (cid : String)
    (allocs : List BackendAllocation) (bal : ClientBalance) (mov : MovementListResponse)
    (ha : env.fetchAllocationsByClient (jsParseInt cid) = Except.ok allocs)
    (hb : env.clientBalance cid = Except.ok bal)
    (hm : env.clientMovements cid 1 1000 = Except.ok mov) :
    (getClientInvestmentStats env cid).total_invested =
      ((mov.movements.filter
        (fun m => m.type = "deposit" && m.status = "completed")).map
        (fun m => m.amount)).sum := by
  unfold getClientInvestmentStats computeStats allocationsByClient
  rw [ha, hb, hm]
  rw [List.sum_eq_foldl, List.foldl_map]
  rfl

/-- Witness for C4: a client with completed deposits of 100.00 and 50.00
and one pending deposit of 9999.00 has `total_invested = 150.00`. -/
theorem claim_C4_total_invested_completed_deposits_witness :
    (getClientInvestmentStats envC4 "1").total_invested = 150 := by
  rw [claim_C4_total_invested_completed_deposits envC4 "1" []
    { clientId := "1", totalBalance := 150 } movListC4 rfl rfl rfl]
  simp [movListC4]
  norm_num

end InvPlat
